import Mathlib

/-!
Verification of the streaming-summary synchronization hook (`useSummaryStream`).

The hook keeps five pieces of React state — `summary`, `isStreaming`,
`isComplete`, `isConnected`, `error` — plus a mutable ref
`triggerInFlightRef`.  Every observable effect of the hook is a pure
transformation of that state:

* the STOMP subscription callback (`handleMessage`) processes one parsed
  `SummaryStreamPayload` per delivery;
* the transport lifecycle callbacks (`onConnect`, `onStompError`,
  `onDisconnect`, `onWebSocketClose`);
* `triggerStream`, whose network interaction is modelled by a
  `TriggerOutcome` input describing how the fetch resolved;
* the page-refresh recovery effect, modelled by `applyRecovery` over a
  `RecoveryOutcome` describing how the recovery fetch resolved.

JavaScript truthiness on optional strings (`if (x)`, `x || d`, `x ?? d`)
is modelled explicitly by `jsTruthy`, `jsOr` and `Option.getD`.
-/

/-- State of the hook: the five `useState` cells plus the
`triggerInFlightRef` mutable ref. -/
structure HookState where
  summary : String
  isStreaming : Bool
  isComplete : Bool
  isConnected : Bool
  error : Option String
  triggerInFlight : Bool
  deriving Repr, DecidableEq

/-- The initial state of a freshly mounted hook. -/
def initialState : HookState :=
  { summary := ""
    isStreaming := false
    isComplete := false
    isConnected := false
    error := none
    triggerInFlight := false }

/-- Message payload shape sent by the backend
(`interface SummaryStreamPayload`).  `type` is kept as a raw string since
the handler switches on it and logs unknown values. -/
structure SummaryStreamPayload where
  type : String
  lectureId : String
  chunk : Option String
  fullSummary : Option String
  error : Option String
  deriving Repr, DecidableEq

/-- JavaScript truthiness of an optional string: `undefined`, `null` and
the empty string are falsy. -/
def jsTruthy (o : Option String) : Bool :=
  match o with
  | some t => !(t == "")
  | none => false

/-- JavaScript `x || d` on an optional string: returns `d` when `x` is
absent or empty. -/
def jsOr (o : Option String) (d : String) : String :=
  match o with
  | some t => if t == "" then d else t
  | none => d

/-- JavaScript `String.prototype.trim`: strips whitespace from both ends
of the string (modelled structurally over the character list). -/
def jsTrim (t : String) : String :=
  String.mk (((t.data.dropWhile Char.isWhitespace).reverse.dropWhile
    Char.isWhitespace).reverse)

/-- The STOMP subscription message callback: the `switch (payload.type)`
body of the handler installed in `client.subscribe`.

* `SUMMARY_CHUNK`: `setSummary(prev => prev + (payload.chunk ?? ''))` and
  `setIsStreaming(true)`;
* `SUMMARY_COMPLETED`: `if (payload.fullSummary) setSummary(payload.fullSummary)`
  (JS truthiness: absent or empty is falsy), then `setIsStreaming(false)`
  and `setIsComplete(true)`;
* `SUMMARY_ERROR`: `setError(payload.error ?? 'An unknown error occurred.')`
  and `setIsStreaming(false)`;
* any other `type` is only logged (`console.warn`), the state is untouched.

The handler never reads `payload.lectureId` and never touches
`triggerInFlightRef`. -/
def handleMessage (payload : SummaryStreamPayload) (s : HookState) : HookState :=
  if payload.type == "SUMMARY_CHUNK" then
    { s with summary := s.summary ++ payload.chunk.getD "", isStreaming := true }
  else if payload.type == "SUMMARY_COMPLETED" then
    let s1 := if jsTruthy payload.fullSummary then
        { s with summary := payload.fullSummary.getD "" }
      else s
    { s1 with isStreaming := false, isComplete := true }
  else if payload.type == "SUMMARY_ERROR" then
    { s with error := some (payload.error.getD ("An unknown error occurred."))
             isStreaming := false }
  else
    s

/-- The `onConnect` STOMP lifecycle callback: `setIsConnected(true)`. -/
def onConnect (s : HookState) : HookState :=
  { s with isConnected := true }

/-- The `onStompError` lifecycle callback:
`setError('WebSocket error: ' + (frame.headers?.message || 'Unknown'))`
and `setIsConnected(false)`.  `headerMessage` models
`frame.headers?.message`. -/
def onStompError (headerMessage : Option String) (s : HookState) : HookState :=
  { s with error := some ("WebSocket error: " ++ jsOr headerMessage ("Unknown"))
           isConnected := false }

/-- The `onDisconnect` lifecycle callback: `setIsConnected(false)`. -/
def onDisconnect (s : HookState) : HookState :=
  { s with isConnected := false }

/-- The `onWebSocketClose` lifecycle callback: `setIsConnected(false)`. -/
def onWebSocketClose (s : HookState) : HookState :=
  { s with isConnected := false }

/-- The hook arguments consulted by `triggerStream`:
`lectureId : string | null | undefined` and `authToken : string | null`. -/
structure HookCtx where
  lectureId : Option String
  authToken : Option String
  deriving Repr, DecidableEq

/-- How the `fetch` inside `triggerStream` resolves.

* `accepted`: `res.ok` is true (202 ACCEPTED);
* `rejected status body`: `res.ok` is false; `body` models `data.error`
  from `res.json().catch(() => ({}))`;
* `networkError m`: the fetch itself threw; `m` models `err.message`. -/
inductive TriggerOutcome where
  | accepted : TriggerOutcome
  | rejected : Nat → Option String → TriggerOutcome
  | networkError : Option String → TriggerOutcome
  deriving Repr, DecidableEq

/-- One call of `triggerStream`.  Returns the resulting state together
with a flag recording whether the network request was issued.

Mirrors the source line by line:
1. `if (!lectureId || !authToken)` sets the missing-context error and
   returns without a request;
2. `if (triggerInFlightRef.current) return` — pure no-op;
3. otherwise the guard is set, the four state cells are reset
   (`setSummary('')`, `setIsStreaming(false)`, `setIsComplete(false)`,
   `setError(null)`), and the fetch is issued;
4. on `res.ok`, `setIsStreaming(true)` and the guard stays set;
5. on non-ok, `throw new Error(data.error || 'HTTP ' + res.status)` is
   caught by the same `catch`, which runs
   `setError(err.message || 'Failed to start summarization.')` and clears
   the guard; a thrown fetch error takes the same `catch` path. -/
def triggerStream (ctx : HookCtx) (outcome : TriggerOutcome) (s : HookState) :
    HookState × Bool :=
  if !(jsTruthy ctx.lectureId) || !(jsTruthy ctx.authToken) then
    ({ s with error := some ("Missing lectureId or authentication token.") }, false)
  else if s.triggerInFlight then
    (s, false)
  else
    let s1 : HookState :=
      { s with triggerInFlight := true
               summary := ""
               isStreaming := false
               isComplete := false
               error := none }
    match outcome with
    | TriggerOutcome.accepted =>
        ({ s1 with isStreaming := true }, true)
    | TriggerOutcome.rejected status body =>
        ({ s1 with
            error := some (jsOr (some (jsOr body ("HTTP " ++ toString status)))
                                ("Failed to start summarization."))
            triggerInFlight := false }, true)
    | TriggerOutcome.networkError m =>
        ({ s1 with
            error := some (jsOr m ("Failed to start summarization."))
            triggerInFlight := false }, true)

/-- How the recovery fetch (`GET /api/lecture/{lectureId}`) resolves.

* `failed`: the fetch threw or `!res.ok` — the effect returns early;
* `fetched f`: the lecture record was parsed; `f` is `lecture.summary`
  when it is a string, `none` otherwise (the handler checks
  `typeof lecture.summary === 'string'`). -/
inductive RecoveryOutcome where
  | failed : RecoveryOutcome
  | fetched : Option String → RecoveryOutcome
  deriving Repr, DecidableEq

/-- The page-refresh recovery effect applied at the time its fetch
resolves: when the saved summary is a truthy string with nonempty trim,
`setSummary(lecture.summary)` and `setIsComplete(true)`; otherwise the
state is untouched.  The effect never reads the current phase. -/
def applyRecovery (outcome : RecoveryOutcome) (s : HookState) : HookState :=
  match outcome with
  | RecoveryOutcome.failed => s
  | RecoveryOutcome.fetched f =>
      if jsTruthy f && !(jsTrim (f.getD "") == "") then
        { s with summary := f.getD "", isComplete := true }
      else s

/-- The effect of the `useEffect` that watches `lectureId`:
`triggerInFlightRef.current = false`. -/
def onLectureIdChange (s : HookState) : HookState :=
  { s with triggerInFlight := false }

/-- Folding a list of `triggerStream` calls over a state, counting how
many network requests reach the server. -/
def runTriggers (ctx : HookCtx) (outcomes : List TriggerOutcome) (s : HookState) :
    HookState × Nat :=
  match outcomes with
  | [] => (s, 0)
  | o :: os =>
      let r := triggerStream ctx o s
      let rest := runTriggers ctx os r.1
      (rest.1, (if r.2 then 1 else 0) + rest.2)

-- ── Concrete fixtures used by witnesses and counterexamples ──────────────────

/-- A context with a valid lecture id and auth token. -/
def ctxOk : HookCtx := { lectureId := some "lec-1", authToken := some "tok" }

/-- A `SUMMARY_CHUNK` payload carrying `"Hel"`, tagged for lecture `lec-2`. -/
def staleChunk : SummaryStreamPayload :=
  { type := "SUMMARY_CHUNK", lectureId := "lec-2", chunk := some "Hel"
    fullSummary := none, error := none }

/-- A `SUMMARY_CHUNK` payload carrying `"Hel"` for the active lecture. -/
def chunkHel : SummaryStreamPayload :=
  { type := "SUMMARY_CHUNK", lectureId := "lec-1", chunk := some "Hel"
    fullSummary := none, error := none }

/-- A `SUMMARY_CHUNK` payload carrying `"lo"` for the active lecture. -/
def chunkLo : SummaryStreamPayload :=
  { type := "SUMMARY_CHUNK", lectureId := "lec-1", chunk := some "lo"
    fullSummary := none, error := none }

/-- A `SUMMARY_CHUNK` payload carrying `"x"` for the active lecture. -/
def chunkX : SummaryStreamPayload :=
  { type := "SUMMARY_CHUNK", lectureId := "lec-1", chunk := some "x"
    fullSummary := none, error := none }

/-- A `SUMMARY_COMPLETED` payload with the authoritative text. -/
def completedHelloWorld : SummaryStreamPayload :=
  { type := "SUMMARY_COMPLETED", lectureId := "lec-1", chunk := none
    fullSummary := some "Hello world.", error := none }

/-- A `SUMMARY_COMPLETED` payload whose `fullSummary` field is absent. -/
def completedNoText : SummaryStreamPayload :=
  { type := "SUMMARY_COMPLETED", lectureId := "lec-1", chunk := none
    fullSummary := none, error := none }

/-- A `SUMMARY_ERROR` payload reporting a generation failure. -/
def errorMsgPayload : SummaryStreamPayload :=
  { type := "SUMMARY_ERROR", lectureId := "lec-1", chunk := none
    fullSummary := none, error := some "model failed" }

/-- A Session mid-stream: chunks have started arriving (`summary = "Hel"`,
`isStreaming = true`) after an accepted trigger. -/
def streamingMid : HookState :=
  { summary := "Hel", isStreaming := true, isComplete := false
    isConnected := true, error := none, triggerInFlight := true }

/-- A Session that has reached Complete with the final text. -/
def completeState : HookState :=
  { summary := "Hello world.", isStreaming := false, isComplete := true
    isConnected := true, error := none, triggerInFlight := true }

/-- A Session seeded by recovery with previously saved content. -/
def recoveredState : HookState :=
  { summary := "Saved text.", isStreaming := false, isComplete := true
    isConnected := true, error := none, triggerInFlight := false }

-- ── C1 ───────────────────────────────────────────────────────────────────────

/-- C1 counterexample: the subscription callback for active lecture
`lec-1` processes a `SUMMARY_CHUNK` whose `lectureId` field is `lec-2`
exactly as a matching one — the projected `summary` and `isStreaming`
both change, contradicting the claim that such a message produces no
observable change. -/
theorem C1_counterexample :
    staleChunk.lectureId ≠ "lec-1" ∧
      (handleMessage staleChunk initialState).summary ≠ initialState.summary ∧
      (handleMessage staleChunk initialState).isStreaming ≠ initialState.isStreaming := by
  decide

/-- C1 (amended): the message handler never reads the payload
`lectureId` field — a delivered message is processed identically
whatever its `lectureId`, so isolation between lectures comes only from
the per-lecture topic subscription, not from any payload check. -/
theorem handleMessage_ignores_lectureId (p : SummaryStreamPayload) (l : String)
    (s : HookState) :
    handleMessage { p with lectureId := l } s = handleMessage p s := rfl

-- ── C2 ───────────────────────────────────────────────────────────────────────

/-- C2 counterexample: the recovery fetch resolves with saved content
while the Session is already streaming (`summary = "Hel"`,
`isStreaming = true`); the recovery effect overwrites the in-progress
accumulated text and marks the Session complete, contradicting the claim
that a non-Idle Session is left unchanged. -/
theorem C2_counterexample :
    streamingMid.isStreaming = true ∧
      (applyRecovery (RecoveryOutcome.fetched (some "Saved text.")) streamingMid).summary
        ≠ streamingMid.summary ∧
      (applyRecovery (RecoveryOutcome.fetched (some "Saved text.")) streamingMid).isComplete
        ≠ streamingMid.isComplete := by
  decide

/-- C2 (amended): the recovery effect has no phase guard — whenever its
fetch resolves with a saved summary string whose trim is nonempty, it
overwrites `summary` and sets `isComplete`, whatever the current phase;
`isStreaming`, `error`, `isConnected` and the trigger guard are left
untouched. -/
theorem recovery_applies_regardless_of_phase (s : HookState) (t : String)
    (h : jsTrim t ≠ "") :
    applyRecovery (RecoveryOutcome.fetched (some t)) s =
      { s with summary := t, isComplete := true } := by
  have ht : ¬(t = "") := by
    intro he
    subst he
    exact h rfl
  simp [applyRecovery, jsTruthy, ht, h]

/-- Witness for `recovery_applies_regardless_of_phase` at a streaming
Session and the saved text `"Saved text."`. -/
theorem recovery_applies_regardless_of_phase_witness :
    jsTrim "Saved text." ≠ "" ∧
      applyRecovery (RecoveryOutcome.fetched (some "Saved text.")) streamingMid =
        { streamingMid with summary := "Saved text.", isComplete := true } :=
  ⟨by decide, recovery_applies_regardless_of_phase streamingMid "Saved text." (by decide)⟩

-- ── C3 ───────────────────────────────────────────────────────────────────────

/-- C3 (code bug): after an accepted trigger, a terminal message
(`SUMMARY_ERROR` here, `SUMMARY_COMPLETED` below) leaves the in-flight
guard set — the message handler never touches it — so the next
`triggerStream` call (the retry / regenerate path) returns without a
network request and without changing state, instead of starting a fresh
generation as the claim (and the retry button wired to `triggerStream`)
requires. -/
theorem C3_guard_not_cleared_on_terminal :
    (handleMessage errorMsgPayload
        (triggerStream ctxOk TriggerOutcome.accepted initialState).1).triggerInFlight
      = true ∧
    triggerStream ctxOk TriggerOutcome.accepted
        (handleMessage errorMsgPayload
          (triggerStream ctxOk TriggerOutcome.accepted initialState).1) =
      (handleMessage errorMsgPayload
          (triggerStream ctxOk TriggerOutcome.accepted initialState).1, false) ∧
    (handleMessage completedHelloWorld
        (triggerStream ctxOk TriggerOutcome.accepted initialState).1).triggerInFlight
      = true ∧
    triggerStream ctxOk TriggerOutcome.accepted
        (handleMessage completedHelloWorld
          (triggerStream ctxOk TriggerOutcome.accepted initialState).1) =
      (handleMessage completedHelloWorld
          (triggerStream ctxOk TriggerOutcome.accepted initialState).1, false) := by
  decide

-- ── C4 ───────────────────────────────────────────────────────────────────────

/-- C4 counterexample: in a Session already Complete (`isComplete = true`
after `SUMMARY_COMPLETED`), a further `SUMMARY_CHUNK` is not ignored: it
appends to the accumulated text and flips `isStreaming` back to true,
with no new trigger having reset the Session. -/
theorem C4_counterexample :
    completeState.isComplete = true ∧
      (handleMessage chunkX completeState).summary ≠ completeState.summary ∧
      (handleMessage chunkX completeState).isStreaming ≠ completeState.isStreaming := by
  decide

/-- C4 (amended): `SUMMARY_CHUNK` messages are processed
unconditionally — whatever the current phase (including Complete or
Failed), a chunk appends its text to `summary` and sets `isStreaming`,
leaving every other field unchanged; nothing in the handler gates chunks
on the phase. -/
theorem chunk_processed_unconditionally (p : SummaryStreamPayload) (s : HookState)
    (h : p.type = "SUMMARY_CHUNK") :
    handleMessage p s =
      { s with summary := s.summary ++ p.chunk.getD "", isStreaming := true } := by
  simp [handleMessage, h]

/-- Witness for `chunk_processed_unconditionally`: a chunk `"x"` arriving
in the Complete state appends and re-enters streaming. -/
theorem chunk_processed_unconditionally_witness :
    handleMessage chunkX completeState =
      { completeState with summary := "Hello world.x", isStreaming := true } := by
  have h := chunk_processed_unconditionally chunkX completeState rfl
  simpa using h

-- ── C5 ───────────────────────────────────────────────────────────────────────

/-- C5 (confirmed): a `SUMMARY_COMPLETED` message with a nonempty
`fullSummary` replaces the accumulated text with exactly that string
(rather than appending), sets `isComplete` and clears `isStreaming`. -/
theorem completed_replaces_text (p : SummaryStreamPayload) (s : HookState) (t : String)
    (hp : p.type = "SUMMARY_COMPLETED") (hf : p.fullSummary = some t) (ht : t ≠ "") :
    handleMessage p s =
      { s with summary := t, isStreaming := false, isComplete := true } := by
  simp [handleMessage, hp, hf, jsTruthy, ht]

/-- Witness for `completed_replaces_text` on the spec scenario: chunks
`"Hel"` then `"lo"` accumulate to `"Hello"`, and the completed message
with `fullSummary = "Hello world."` yields exactly `"Hello world."`. -/
theorem completed_replaces_text_witness :
    (handleMessage chunkLo (handleMessage chunkHel initialState)).summary = "Hello" ∧
      handleMessage completedHelloWorld
          (handleMessage chunkLo (handleMessage chunkHel initialState)) =
        { handleMessage chunkLo (handleMessage chunkHel initialState) with
            summary := "Hello world.", isStreaming := false, isComplete := true } :=
  ⟨by decide,
    completed_replaces_text completedHelloWorld
      (handleMessage chunkLo (handleMessage chunkHel initialState))
      "Hello world." rfl rfl (by decide)⟩

-- ── C6 ───────────────────────────────────────────────────────────────────────

/-- Helper: with a valid context, a `triggerStream` call made while the
in-flight guard is set is a pure no-op — no request, no state change. -/
theorem triggerStream_inFlight_noop (ctx : HookCtx) (o : TriggerOutcome) (s : HookState)
    (hl : jsTruthy ctx.lectureId = true) (ha : jsTruthy ctx.authToken = true)
    (hg : s.triggerInFlight = true) :
    triggerStream ctx o s = (s, false) := by
  simp [triggerStream, hl, ha, hg]

/-- Helper: a whole sequence of `triggerStream` calls made while the
guard is set issues zero requests and leaves the state unchanged. -/
theorem runTriggers_inFlight (ctx : HookCtx) (os : List TriggerOutcome) (s : HookState)
    (hl : jsTruthy ctx.lectureId = true) (ha : jsTruthy ctx.authToken = true)
    (hg : s.triggerInFlight = true) :
    runTriggers ctx os s = (s, 0) := by
  induction os with
  | nil => rfl
  | cons o os ih =>
      simp [runTriggers, triggerStream_inFlight_noop ctx o s hl ha hg, ih]

/-- C6 (confirmed): with a valid context and no trigger in flight, an
accepted trigger followed by any further `triggerStream` calls (automatic
or manual) before a terminal message results in each later call returning
immediately with the state unchanged and no request, so exactly one
request reaches the server. -/
theorem single_trigger_request (ctx : HookCtx) (s : HookState) (o : TriggerOutcome)
    (rest : List TriggerOutcome)
    (hl : jsTruthy ctx.lectureId = true) (ha : jsTruthy ctx.authToken = true)
    (hg : s.triggerInFlight = false) :
    triggerStream ctx o (triggerStream ctx TriggerOutcome.accepted s).1 =
        ((triggerStream ctx TriggerOutcome.accepted s).1, false) ∧
      runTriggers ctx (TriggerOutcome.accepted :: rest) s =
        ((triggerStream ctx TriggerOutcome.accepted s).1, 1) := by
  have hs1 : (triggerStream ctx TriggerOutcome.accepted s).1.triggerInFlight = true := by
    simp [triggerStream, hl, ha, hg]
  have hfirst : (triggerStream ctx TriggerOutcome.accepted s).2 = true := by
    simp [triggerStream, hl, ha, hg]
  refine ⟨triggerStream_inFlight_noop ctx o _ hl ha hs1, ?_⟩
  simp [runTriggers, runTriggers_inFlight ctx rest _ hl ha hs1, hfirst]

/-- Witness for `single_trigger_request`: three calls (one accepted, two
racing duplicates) from the initial state issue exactly one request. -/
theorem single_trigger_request_witness :
    triggerStream ctxOk TriggerOutcome.accepted
        (triggerStream ctxOk TriggerOutcome.accepted initialState).1 =
      ((triggerStream ctxOk TriggerOutcome.accepted initialState).1, false) ∧
    runTriggers ctxOk
        (TriggerOutcome.accepted :: [TriggerOutcome.accepted, TriggerOutcome.accepted])
        initialState =
      ((triggerStream ctxOk TriggerOutcome.accepted initialState).1, 1) :=
  single_trigger_request ctxOk initialState TriggerOutcome.accepted
    [TriggerOutcome.accepted, TriggerOutcome.accepted]
    (by decide) (by decide) (by decide)

-- ── C7 ───────────────────────────────────────────────────────────────────────

/-- C7 counterexample: a STOMP protocol error (a transport-level
failure) does not only flip `isConnected` — it also sets the Session
error to a `WebSocket error: ...` message, contradicting the claim that
only a `SUMMARY_ERROR` message or a trigger failure sets `error`. -/
theorem C7_counterexample :
    (onStompError (some "broker unavailable") initialState).isConnected = false ∧
      (onStompError (some "broker unavailable") initialState).error
        ≠ initialState.error := by
  decide

/-- C7 (amended): transport callbacks never clear the accumulated text
and never change `isStreaming` or `isComplete`; disconnects and socket
closes surface purely as `isConnected = false`, while a STOMP protocol
error additionally sets `error` to a `WebSocket error: ...` message. -/
theorem transport_error_effects (s : HookState) (m : Option String) :
    onDisconnect s = { s with isConnected := false } ∧
      onWebSocketClose s = { s with isConnected := false } ∧
      onStompError m s =
        { s with isConnected := false
                 error := some ("WebSocket error: " ++ jsOr m ("Unknown")) } :=
  ⟨rfl, rfl, rfl⟩

-- ── C8 ───────────────────────────────────────────────────────────────────────

/-- C8 counterexample: a Session holding recovered content
(`summary = "Saved text."`, `isComplete = true`) issues a trigger whose
request fails at the network level; the previously accumulated text and
the Complete flag are not preserved — they were cleared before the
request was made. -/
theorem C8_counterexample :
    recoveredState.summary = "Saved text." ∧ recoveredState.isComplete = true ∧
      (triggerStream ctxOk (TriggerOutcome.networkError none) recoveredState).1.summary
        ≠ recoveredState.summary ∧
      (triggerStream ctxOk (TriggerOutcome.networkError none) recoveredState).1.isComplete
        ≠ recoveredState.isComplete := by
  decide

/-- C8 (amended): the reset of `summary`, `isStreaming`, `isComplete`
and `error` happens unconditionally at the start of every
`triggerStream` call that passes the missing-context and in-flight
guards, before the request resolves — so an accepted trigger enters
Streaming from a clean slate, and a failed trigger leaves the Session
with empty `summary` and `isComplete = false` (not the prior values),
the failure surfaced as `error` and the guard cleared. -/
theorem trigger_resets_state_before_request (ctx : HookCtx) (s : HookState)
    (m : Option String) (st : Nat) (b : Option String)
    (hl : jsTruthy ctx.lectureId = true) (ha : jsTruthy ctx.authToken = true)
    (hg : s.triggerInFlight = false) :
    triggerStream ctx TriggerOutcome.accepted s =
        ({ s with summary := "", isStreaming := true, isComplete := false
                  error := none, triggerInFlight := true }, true) ∧
      triggerStream ctx (TriggerOutcome.networkError m) s =
        ({ s with summary := "", isStreaming := false, isComplete := false
                  error := some (jsOr m ("Failed to start summarization."))
                  triggerInFlight := false }, true) ∧
      triggerStream ctx (TriggerOutcome.rejected st b) s =
        ({ s with summary := "", isStreaming := false, isComplete := false
                  error := some (jsOr (some (jsOr b ("HTTP " ++ toString st)))
                    ("Failed to start summarization."))
                  triggerInFlight := false }, true) := by
  refine ⟨?_, ?_, ?_⟩ <;> simp [triggerStream, hl, ha, hg]

/-- Witness for `trigger_resets_state_before_request` at the recovered
Session: the accepted, network-error and HTTP-500 outcomes all start
from the cleared state. -/
theorem trigger_resets_state_before_request_witness :
    jsTruthy ctxOk.lectureId = true ∧ jsTruthy ctxOk.authToken = true ∧
      recoveredState.triggerInFlight = false ∧
      triggerStream ctxOk TriggerOutcome.accepted recoveredState =
        ({ recoveredState with summary := "", isStreaming := true, isComplete := false
                               error := none, triggerInFlight := true }, true) :=
  ⟨by decide, by decide, by decide,
    (trigger_resets_state_before_request ctxOk recoveredState none 500 none
      (by decide) (by decide) (by decide)).1⟩

-- ── C9 ───────────────────────────────────────────────────────────────────────

/-- C9 (confirmed): when the trigger request fails at the request level
(fetch threw, or non-2xx), the in-flight guard is cleared in the same
step, `isStreaming` is false (no transition to Streaming), the failure
reason is surfaced as `error`, and an immediate re-trigger does issue a
new network request. -/
theorem trigger_failure_clears_guard (ctx : HookCtx) (s : HookState)
    (m : Option String) (st : Nat) (b : Option String)
    (hl : jsTruthy ctx.lectureId = true) (ha : jsTruthy ctx.authToken = true)
    (hg : s.triggerInFlight = false) :
    (triggerStream ctx (TriggerOutcome.networkError m) s).1.triggerInFlight = false ∧
      (triggerStream ctx (TriggerOutcome.networkError m) s).1.isStreaming = false ∧
      (triggerStream ctx (TriggerOutcome.networkError m) s).1.error =
        some (jsOr m ("Failed to start summarization.")) ∧
      (triggerStream ctx (TriggerOutcome.rejected st b) s).1.triggerInFlight = false ∧
      (triggerStream ctx (TriggerOutcome.rejected st b) s).1.isStreaming = false ∧
      (triggerStream ctx (TriggerOutcome.rejected st b) s).1.error =
        some (jsOr (some (jsOr b ("HTTP " ++ toString st)))
          ("Failed to start summarization.")) ∧
      (triggerStream ctx TriggerOutcome.accepted
          (triggerStream ctx (TriggerOutcome.networkError m) s).1).2 = true := by
  refine ⟨?_, ?_, ?_, ?_, ?_, ?_, ?_⟩ <;> simp [triggerStream, hl, ha, hg]

/-- Witness for `trigger_failure_clears_guard`: a network failure from
the initial state clears the guard, stays out of Streaming, surfaces the
fallback error message, and allows an immediate successful retry. -/
theorem trigger_failure_clears_guard_witness :
    jsTruthy ctxOk.lectureId = true ∧ jsTruthy ctxOk.authToken = true ∧
      initialState.triggerInFlight = false ∧
      ((triggerStream ctxOk (TriggerOutcome.networkError none) initialState).1.triggerInFlight
          = false ∧
        (triggerStream ctxOk (TriggerOutcome.networkError none) initialState).1.isStreaming
          = false ∧
        (triggerStream ctxOk (TriggerOutcome.networkError none) initialState).1.error =
          some (jsOr none ("Failed to start summarization.")) ∧
        (triggerStream ctxOk (TriggerOutcome.rejected 500 none) initialState).1.triggerInFlight
          = false ∧
        (triggerStream ctxOk (TriggerOutcome.rejected 500 none) initialState).1.isStreaming
          = false ∧
        (triggerStream ctxOk (TriggerOutcome.rejected 500 none) initialState).1.error =
          some (jsOr (some (jsOr none ("HTTP " ++ toString 500)))
            ("Failed to start summarization.")) ∧
        (triggerStream ctxOk TriggerOutcome.accepted
            (triggerStream ctxOk (TriggerOutcome.networkError none) initialState).1).2
          = true) :=
  ⟨by decide, by decide, by decide,
    trigger_failure_clears_guard ctxOk initialState none 500 none
      (by decide) (by decide) (by decide)⟩

-- ── C10 ──────────────────────────────────────────────────────────────────────

/-- C10 (confirmed): a `SUMMARY_COMPLETED` message whose `fullSummary`
is absent or the empty string still moves the Session to Complete
(`isComplete := true`, `isStreaming := false`) but leaves the projected
text at the chunk-accumulated value. -/
theorem completed_empty_keeps_text (p : SummaryStreamPayload) (s : HookState)
    (hp : p.type = "SUMMARY_COMPLETED")
    (hf : p.fullSummary = none ∨ p.fullSummary = some "") :
    handleMessage p s = { s with isStreaming := false, isComplete := true } := by
  rcases hf with hf | hf <;> simp [handleMessage, hp, hf, jsTruthy]

/-- Witness for `completed_empty_keeps_text`: a completed message with
no `fullSummary` arriving mid-stream keeps the accumulated `"Hel"`. -/
theorem completed_empty_keeps_text_witness :
    handleMessage completedNoText streamingMid =
      { streamingMid with isStreaming := false, isComplete := true } :=
  completed_empty_keeps_text completedNoText streamingMid rfl (Or.inl rfl)
